import Mathlib

/-!
Shallow embedding of the jobtracker backend (Express + Supabase) for
verification of its specification.

Modelling conventions:
* UUIDs (record ids, user ids) are modelled as `Nat`.
* SQL `DATE` / timestamp columns are modelled as `Nat` (only their order and
  equality matter to the controllers).
* The `job_applications` table is a `List Job`; the Supabase query-builder
  calls of each controller are translated into list operations with the same
  semantics (filter by `eq`, order, range, `single()` returning an error
  unless exactly one row matches — PostgREST code PGRST116 covers both zero
  and multiple rows).
* Store-level failures that a controller handles are modelled by explicit
  Boolean fault parameters on the embedded controller.
* The external generative (OpenAI) call of the email controller is modelled
  by an `AIOutcome` parameter: the handler's behaviour is a function of the
  call's outcome; a thrown error (quota, network, API failure) is
  `AIOutcome.failure`.
-/

namespace JobTracker

/-- A row of the `job_applications` table (database/schema.sql). -/
structure Job where
  id : Nat
  user_id : Nat
  company_name : String
  role : String
  status : String
  applied_date : Nat
  notes : String
  created_at : Nat
  updated_at : Nat
deriving Repr, DecidableEq

/-- Character-list prefix test (used to express SQL `ilike` containment). -/
def leadsWith : List Char → List Char → Bool
  | [], _ => true
  | _ :: _, [] => false
  | a :: as, b :: bs => a = b && leadsWith as bs

/-- Lower-casing of a character list (strings are handled through their
character lists so that every operation is structurally recursive). -/
def lowerChars (l : List Char) : List Char := l.map Char.toLower

/-- All suffixes of a character list, longest first (used to give `%` its
any-sequence meaning). -/
def tails : List Char → List (List Char)
  | [] => [[]]
  | c :: t => (c :: t) :: tails t

/-- A token of a lexed SQL `LIKE` pattern: `_` (any one character), `%`
(any sequence), or a literal character. -/
inductive LikeTok where
  | anyOne
  | anySeq
  | lit (c : Char)
deriving Repr, DecidableEq

/-- Classification of one `LIKE` pattern character: wildcard `%`, wildcard
`_`, the backslash escape, or a plain character. -/
inductive LikeSym where
  | pct
  | und
  | esc
  | plain (c : Char)
deriving Repr, DecidableEq

/-- Classify a `LIKE` pattern character. -/
def charSym (c : Char) : LikeSym :=
  if c = '%' then .pct else if c = '_' then .und
  else if c = '\\' then .esc else .plain c

/-- The character a classified symbol stands for (used for the character
following an escape, which always matches literally). -/
def symChar : LikeSym → Char
  | .pct => '%'
  | .und => '_'
  | .esc => '\\'
  | .plain c => c

/-- Lex a `LIKE` pattern: wildcards become their tokens, an escape makes the
next character literal, and a pattern ending in a bare escape is an error in
Postgres (`LIKE pattern must not end with escape character`) — `none`. -/
def lexToks : List LikeSym → Option (List LikeTok)
  | [] => some []
  | .pct :: ss => (lexToks ss).map (fun ts => .anySeq :: ts)
  | .und :: ss => (lexToks ss).map (fun ts => .anyOne :: ts)
  | .esc :: [] => none
  | .esc :: s :: ss => (lexToks ss).map (fun ts => .lit (symChar s) :: ts)
  | .plain c :: ss => (lexToks ss).map (fun ts => .lit c :: ts)

/-- Run a lexed `LIKE` pattern against a subject: `%` tries every suffix,
`_` consumes one character, a literal must match exactly. -/
def likeRun : List LikeTok → List Char → Bool
  | [], hay => hay.isEmpty
  | .anySeq :: ts, hay => (tails hay).any (fun suf => likeRun ts suf)
  | .anyOne :: _, [] => false
  | .anyOne :: ts, _ :: t => likeRun ts t
  | .lit _ :: _, [] => false
  | .lit c :: ts, h :: t => c = h && likeRun ts t

/-- SQL `LIKE` matching of `pattern` against `subject` (both already
lower-cased by the caller for `ILIKE`): `%` matches any sequence, `_` any
single character, and a backslash escapes the next pattern character. An
invalid pattern (bare trailing escape) makes the query fail in Postgres, so
no row comes back — modelled as matching no subject. -/
def likeMatch (pattern hay : List Char) : Bool :=
  match lexToks (pattern.map charSym) with
  | none => false
  | some ts => likeRun ts hay

/-- Embedding of the Postgres `ILIKE '%term%'` produced by `getAllJobs`'s
interpolation `company_name.ilike.%${search}%`: the raw term is placed
between two `%` and matched case-insensitively with SQL `LIKE` semantics, so
`_`, `%` and `\` inside the term keep their wildcard/escape meanings. -/
def ilikeTerm (hay term : String) : Bool :=
  likeMatch (lowerChars ('%' :: (term.toList ++ ['%'])))
    (lowerChars hay.toList)

/-- Order relation for `order('applied_date', { ascending: false })`:
`a` may come before `b` when `a`'s applied date is the later one. -/
def appliedGe (a b : Job) : Prop := b.applied_date ≤ a.applied_date

instance : DecidableRel appliedGe :=
  fun a b => Nat.decLe b.applied_date a.applied_date

instance : IsTotal Job appliedGe :=
  ⟨fun a b => Nat.le_total b.applied_date a.applied_date⟩

instance : IsTrans Job appliedGe :=
  ⟨fun _ _ _ hab hbc => Nat.le_trans hbc hab⟩

/-- Order relation for `order('created_at', { ascending: false })`. -/
def createdGe (a b : Job) : Prop := b.created_at ≤ a.created_at

instance : DecidableRel createdGe :=
  fun a b => Nat.decLe b.created_at a.created_at

instance : IsTotal Job createdGe :=
  ⟨fun a b => Nat.le_total b.created_at a.created_at⟩

instance : IsTrans Job createdGe :=
  ⟨fun _ _ _ hab hbc => Nat.le_trans hbc hab⟩

/-- Rows matching `.eq('id', id).eq('user_id', userId)`. -/
def rowsFor (userId id : Nat) (db : List Job) : List Job :=
  db.filter (fun r => r.id = id && r.user_id = userId)

/-! ### GET /api/jobs/:id — `getJobById` -/

/-- Result of the get-by-id controller: a 200 payload or an `APIError`. -/
inductive GetResult where
  | ok (data : Job)
  | apiError (status : Nat) (code message : String)
deriving Repr, DecidableEq

/-- Embedding of `getJobById` (jobController): select rows with the given id owned by the
caller, `.single()`; PGRST116 (zero or multiple rows) becomes a 404
`NOT_FOUND`; the modelled store itself does not fail here. -/
def getJobById (userId id : Nat) (db : List Job) : GetResult :=
  match rowsFor userId id db with
  | [r] => .ok r
  | _ => .apiError 404 "NOT_FOUND" "Job application not found"

/-! ### DELETE /api/jobs/:id — `deleteJob` -/

/-- Result of the delete controller. -/
inductive DeleteResult where
  | ok (message : String)
  | apiError (status : Nat) (code message : String)
deriving Repr, DecidableEq

/-- Embedding of `deleteJob` (jobController): pre-check that the row exists and belongs to
the caller (`.single()` on id + user_id), 404 otherwise; then delete the
rows matching id + user_id. Returns the new table and the response. -/
def deleteJob (userId id : Nat) (db : List Job) : List Job × DeleteResult :=
  match rowsFor userId id db with
  | [_] =>
      (db.filter (fun r => !(r.id = id && r.user_id = userId)),
       .ok "Job application deleted successfully")
  | _ => (db, .apiError 404 "NOT_FOUND" "Job application not found")

/-! ### PUT /api/jobs/:id — `updateJob` -/

/-- The JSON body of an update request. `validateUpdateJobApplication` checks
the five documented fields when present but does not remove other keys, so a
client may also send `user_id`; the controller forwards `req.body` wholesale. -/
structure UpdateBody where
  company_name : Option String := none
  role : Option String := none
  status : Option String := none
  applied_date : Option Nat := none
  notes : Option String := none
  user_id : Option Nat := none
deriving Repr, DecidableEq

/-- The object passed to `.update({...updates, updated_at: now})`: every
field present in the request body overwrites the stored column — including
`user_id` when the client supplies it — and `updated_at` is set to now. -/
def applyUpdates (b : UpdateBody) (now : Nat) (r : Job) : Job :=
  { r with
    company_name := b.company_name.getD r.company_name
    role := b.role.getD r.role
    status := b.status.getD r.status
    applied_date := b.applied_date.getD r.applied_date
    notes := b.notes.getD r.notes
    user_id := b.user_id.getD r.user_id
    updated_at := now }

/-- Result of the update controller. -/
inductive UpdateResult where
  | ok (message : String) (data : Job)
  | apiError (status : Nat) (code message : String)
deriving Repr, DecidableEq

/-- Embedding of `updateJob` (jobController): ownership pre-check via `.single()` on
id + user_id (404 on zero or multiple rows), then
`.update({...updates, updated_at}).eq('id', id).eq('user_id', userId)
.select().single()`. The `eq` filters select the rows to rewrite (evaluated
against their pre-update values); the returned data is the rewritten row. -/
def updateJob (userId id : Nat) (b : UpdateBody) (now : Nat) (db : List Job) :
    List Job × UpdateResult :=
  match rowsFor userId id db with
  | [r] =>
      (db.map (fun x =>
          if x.id = id && x.user_id = userId then applyUpdates b now x else x),
       .ok "Job application updated successfully" (applyUpdates b now r))
  | _ => (db, .apiError 404 "NOT_FOUND" "Job application not found")

/-! ### POST /api/jobs — `createJob` -/

/-- The JSON body of a create request. The controller destructures exactly
`company_name`, `role`, `status`, `applied_date`, `notes`; any `user_id`
sent by the client is present in `req.body` but never read. -/
structure CreateBody where
  company_name : String
  role : String
  status : String
  applied_date : Option Nat := none
  notes : Option String := none
  user_id : Option Nat := none
deriving Repr, DecidableEq

/-- Result of the create controller (201 on success). -/
inductive CreateResult where
  | created (status : Nat) (message : String) (data : Job)
  | apiError (status : Nat) (code message : String)
deriving Repr, DecidableEq

/-- Embedding of `createJob` (jobController): inserts a row whose `user_id` is the
authenticated caller's id, `applied_date` defaulting to the current date and
`notes` to the empty string (`applied_date || today`, `notes || ''`); the
store assigns the fresh id and both timestamps; responds 201 with the stored
row. The store-failure branch (`CREATE_ERROR`, 500) is not exercised by any
claim and is not modelled. -/
def createJob (userId : Nat) (b : CreateBody) (freshId today now : Nat)
    (db : List Job) : List Job × CreateResult :=
  let newJob : Job :=
    { id := freshId
      user_id := userId
      company_name := b.company_name
      role := b.role
      status := b.status
      applied_date := b.applied_date.getD today
      notes := b.notes.getD ""
      created_at := now
      updated_at := now }
  (db ++ [newJob], .created 201 "Job application created successfully" newJob)

/-! ### GET /api/jobs — `getAllJobs` and `validateQueryParams` -/

/-- Parsed query string of a list request. `limit`/`offset` are integers as
parsed by `parseInt`; the controller defaults them to 50 and 0. -/
structure ListQuery where
  status : Option String := none
  search : Option String := none
  limit : Option Int := none
  offset : Option Int := none
deriving Repr, DecidableEq

/-- The conjunction of the query's `eq`/`or(ilike)` filters, always including
the caller's `user_id`. -/
def matchesFilters (userId : Nat) (q : ListQuery) (r : Job) : Bool :=
  r.user_id = userId
  && (match q.status with
      | none => true
      | some s => r.status = s)
  && (match q.search with
      | none => true
      | some s => ilikeTerm r.company_name s || ilikeTerm r.role s)

/-- Pagination metadata of a list response. -/
structure Pagination where
  total : Nat
  limit : Int
  offset : Int
  hasMore : Bool
deriving Repr, DecidableEq

/-- A successful list response body. -/
structure ListResult where
  success : Bool
  data : List Job
  pagination : Pagination
deriving Repr, DecidableEq

/-- Embedding of `getAllJobs` (jobController): filter the caller's rows by the optional
status and search filters, order by applied date descending, take the
`range(offset, offset + limit - 1)` window (limit rows starting at offset);
`count: 'exact'` is the number of matching rows before the window. The
store-failure branch (`FETCH_ERROR`, 500) is not exercised by any claim. -/
def getAllJobs (userId : Nat) (q : ListQuery) (db : List Job) : ListResult :=
  let lim := q.limit.getD 50
  let off := q.offset.getD 0
  let matching := db.filter (matchesFilters userId q)
  let page := ((matching.insertionSort appliedGe).drop off.toNat).take lim.toNat
  { success := true
    data := page
    pagination :=
      { total := matching.length
        limit := lim
        offset := off
        hasMore := decide ((off + page.length : Int) < matching.length) } }

/-! ### GET /api/jobs/stats — `getJobStats` -/

/-- The aggregate block of the stats response. -/
structure Stats where
  total : Nat
  applied : Nat
  interview : Nat
  rejected : Nat
  offer : Nat
deriving Repr, DecidableEq

/-- Result of the stats controller (`ok` is an HTTP 200 success body). -/
inductive StatsResult where
  | ok (stats : Stats) (recent : List Job)
  | apiError (status : Nat) (code message : String)
deriving Repr, DecidableEq

/-- The projected result of the stats handler's `select('status')` query:
the status column of the caller's rows. -/
def statusDataOf (userId : Nat) (db : List Job) : List String :=
  (db.filter (fun r => r.user_id = userId)).map Job.status

/-- The "Calculate statistics" block of `getJobStats`: the length of the
status list and of its per-value filters. -/
def statusCountsOf (userId : Nat) (db : List Job) : Stats :=
  { total := (statusDataOf userId db).length
    applied := ((statusDataOf userId db).filter (fun s => s = "Applied")).length
    interview := ((statusDataOf userId db).filter (fun s => s = "Interview")).length
    rejected := ((statusDataOf userId db).filter (fun s => s = "Rejected")).length
    offer := ((statusDataOf userId db).filter (fun s => s = "Offer")).length }

/-- The stats handler's recent-jobs query: the caller's rows ordered by
created timestamp descending, limited to 5. -/
def recentOf (userId : Nat) (db : List Job) : List Job :=
  ((db.filter (fun r => r.user_id = userId)).insertionSort createdGe).take 5

/-- Embedding of `getJobStats` (jobController). Two store queries, each with an explicit
fault flag: the `select('status')` query's error throws `STATS_ERROR` (500);
the recent-jobs query's error is only logged — the handler still responds
200, substituting `recentJobs || []`. -/
def getJobStats (userId : Nat) (db : List Job)
    (statusQueryFails recentQueryFails : Bool) : StatsResult :=
  if statusQueryFails then
    .apiError 500 "STATS_ERROR" "Failed to fetch statistics"
  else
    let recentJobs : Option (List Job) :=
      if recentQueryFails then none else some (recentOf userId db)
    .ok (statusCountsOf userId db) (recentJobs.getD [])

/-! ### POST /api/ai/generate-email — `generateEmail` (aiController) -/

/-- Embedding of `isAIAvailable` (config/openai.js): the client object exists exactly when
the key is truthy (present and non-empty), and the key must start with
`sk-`. -/
def isAIAvailable (apiKey : Option String) : Bool :=
  match apiKey with
  | none => false
  | some k => !(k = "") && k.startsWith "sk-"

/-- The validated JSON body of an email-generation request. -/
structure EmailReq where
  company_name : String
  role : String
  recipient_name : Option String := none
  your_name : String
deriving Repr, DecidableEq

/-- Outcome of the external generative call: the completion text the handler
reads from `completion.choices[0]?.message?.content?` (absent pieces give an
empty string after optional chaining and trim), or a thrown error (quota,
network, API failure). -/
inductive AIOutcome where
  | success (content : String)
  | failure (message : String)
deriving Repr, DecidableEq

/-- Embedding of `emailTemplates` (aiController): the three fixed parameterized templates,
keyed by the request's `type` string; an unknown key has no template (the
JS lookup yields `undefined` and calling it throws). The referral template
defaults its recipient to `there`. -/
def emailTemplates (t : String) (req : EmailReq) : Option (String × String) :=
  if t = "cold" then
    some ("Application for " ++ req.role ++ " at " ++ req.company_name,
      "Dear Hiring Manager,\n\nI hope this email finds you well. My name is "
      ++ req.your_name
      ++ ", and I am writing to express my interest in the " ++ req.role
      ++ " position at " ++ req.company_name ++ ".\n\nI have been following "
      ++ req.company_name
      ++ "'s work and am particularly impressed by your innovative approach to the industry. I believe my skills and experience make me a strong candidate for this role.\n\nI would welcome the opportunity to discuss how I can contribute to your team. Thank you for considering my application.\n\nBest regards,\n"
      ++ req.your_name)
  else if t = "followup" then
    some ("Follow-up: " ++ req.role ++ " Application at " ++ req.company_name,
      "Dear Hiring Manager,\n\nI hope you are doing well. I wanted to follow up on my application for the "
      ++ req.role ++ " position at " ++ req.company_name
      ++ " that I submitted recently.\n\nI remain very interested in this opportunity and would appreciate any update you might have regarding my application status.\n\nThank you for your time and consideration.\n\nBest regards,\n"
      ++ req.your_name)
  else if t = "referral" then
    some ("Referral Request: " ++ req.role ++ " at " ++ req.company_name,
      "Hi " ++ req.recipient_name.getD "there"
      ++ ",\n\nI hope you're having a great day! I noticed that "
      ++ req.company_name ++ " has an opening for a " ++ req.role
      ++ " position, and I was wondering if you might be open to referring me.\n\nI believe my background would be a good fit for this role, and I would greatly appreciate your support in the application process.\n\nPlease let me know if you need any additional information from me.\n\nBest regards,\n"
      ++ req.your_name)
  else none

/-- The `data` object of an email-generation response. -/
structure EmailData where
  subject : String
  body : String
  generated_by : String
  note : Option String := none
deriving Repr, DecidableEq

/-- An email-generation HTTP response. -/
structure EmailResponse where
  status : Nat
  success : Bool
  data : EmailData
deriving Repr, DecidableEq

/-- Embedding of `content.split('\n')` on character lists (an empty input gives one empty
line, as in JS). -/
def splitLines : List Char → List (List Char)
  | [] => [[]]
  | c :: t =>
      if c = '\n' then [] :: splitLines t
      else
        match splitLines t with
        | [] => [[c]]
        | h :: rest => (c :: h) :: rest

/-- JS `trim()`: whitespace removed from both ends. -/
def trimChars (l : List Char) : List Char :=
  ((l.dropWhile Char.isWhitespace).reverse.dropWhile Char.isWhitespace).reverse

/-- Embedding of the join in `lines.slice(k).join('\n')`. -/
def joinLines : List (List Char) → List Char
  | [] => []
  | [l] => l
  | l :: ls => l ++ '\n' :: joinLines ls

/-- The subject-line guard of the parsing loop:
`lines[i].toLowerCase().startsWith('subject:')`. -/
def subjectLinePred (l : List Char) : Bool :=
  leadsWith "subject:".toList (lowerChars l)

/-- The regex replacement applied to the matched line: under the loop's
guard the pattern matches, removing the eight label characters and the
whitespace after them. -/
def stripSubjectLabel (l : List Char) : List Char :=
  if subjectLinePred l then (l.drop 8).dropWhile Char.isWhitespace else l

/-- The subject-extraction loop: scan the lines from accumulated index `i`;
at the first line passing the guard, return the stripped, trimmed subject
and `i + 2` as the body start (skipping the subject line and one separator
line); if no line matches, `subject` and `bodyStartIndex` keep their initial
values (empty and 0). -/
def extractSubject : List (List Char) → Nat → List Char × Nat
  | [], _ => ([], 0)
  | l :: ls, i =>
      if subjectLinePred l then (trimChars (stripSubjectLabel l), i + 2)
      else extractSubject ls (i + 1)

/-- The parsing phase of `generateEmail` applied to the trimmed completion
text: split on newlines, run the subject loop, join the remaining lines from
the body start and trim. -/
def parseGenerated (content : List Char) : List Char × List Char :=
  ((extractSubject (splitLines content) 0).1,
   trimChars (joinLines ((splitLines content).drop
     (extractSubject (splitLines content) 0).2)))

/-- A 200 response carrying the template for the requested type plus the
given provenance note, or `none` when the type has no template (the JS
call on `undefined` would throw). -/
def templateResponse (t : String) (req : EmailReq) (note : String) :
    Option EmailResponse :=
  (emailTemplates t req).map (fun tpl =>
    { status := 200
      success := true
      data :=
        { subject := tpl.1
          body := tpl.2
          generated_by := "template"
          note := some note } })

/-- The 200 response built from a non-empty trimmed completion `content`:
the parsed subject, substituted by the synthesized default when empty, and
the parsed body, substituted by the completion text when empty. -/
def aiSuccessResponse (req : EmailReq) (content : List Char) : EmailResponse :=
  { status := 200
    success := true
    data :=
      { subject :=
          if (parseGenerated content).1 = [] then
            "Application for " ++ req.role ++ " at " ++ req.company_name
          else String.mk (parseGenerated content).1
        body :=
          if (parseGenerated content).2 = [] then String.mk content
          else String.mk (parseGenerated content).2
        generated_by := "ai"
        note := none } }

/-- Embedding of `generateEmail` (aiController). Parameters beyond the request body:
whether `isAIAvailable()` holds, and the external call's outcome. When AI is
unavailable the handler returns the template response without consulting the
call at all; otherwise a thrown error or an empty trimmed completion lands
in the catch block, which answers 200 with the template and the error note;
a non-empty completion is parsed by `aiSuccessResponse`. -/
def generateEmail (t : String) (req : EmailReq) (available : Bool)
    (outcome : AIOutcome) : Option EmailResponse :=
  if !available then
    templateResponse t req
      "AI generation is currently unavailable. Using template instead."
  else
    match outcome with
    | .failure _ =>
        templateResponse t req
          "AI generation encountered an error. Using template instead."
    | .success raw =>
        if trimChars raw.toList = [] then
          templateResponse t req
            "AI generation encountered an error. Using template instead."
        else some (aiSuccessResponse req (trimChars raw.toList))

/-! ### Concrete fixtures used by witnesses -/

/-- Stats fixture: user 1 has 3 Applied, 1 Interview, 0 Rejected, 1 Offer
records; user 2 has one record. -/
def db9 : List Job :=
  [{ id := 1, user_id := 1, company_name := "A", role := "R",
     status := "Applied", applied_date := 3, notes := "",
     created_at := 60, updated_at := 1 },
   { id := 2, user_id := 1, company_name := "B", role := "R",
     status := "Applied", applied_date := 5, notes := "",
     created_at := 50, updated_at := 1 },
   { id := 3, user_id := 1, company_name := "C", role := "R",
     status := "Interview", applied_date := 4, notes := "",
     created_at := 40, updated_at := 1 },
   { id := 4, user_id := 1, company_name := "D", role := "R",
     status := "Applied", applied_date := 6, notes := "",
     created_at := 30, updated_at := 1 },
   { id := 5, user_id := 1, company_name := "E", role := "R",
     status := "Offer", applied_date := 7, notes := "",
     created_at := 20, updated_at := 1 },
   { id := 6, user_id := 2, company_name := "F", role := "R",
     status := "Rejected", applied_date := 8, notes := "",
     created_at := 70, updated_at := 1 }]

/-- The expected stats for user 1 over `db9`. -/
def stats9 : Stats :=
  { total := 5, applied := 3, interview := 1, rejected := 0, offer := 1 }

/-- The expected recent list for user 1 over `db9`: all five of user 1's
records, newest first. -/
def recent9 : List Job :=
  [{ id := 1, user_id := 1, company_name := "A", role := "R",
     status := "Applied", applied_date := 3, notes := "",
     created_at := 60, updated_at := 1 },
   { id := 2, user_id := 1, company_name := "B", role := "R",
     status := "Applied", applied_date := 5, notes := "",
     created_at := 50, updated_at := 1 },
   { id := 3, user_id := 1, company_name := "C", role := "R",
     status := "Interview", applied_date := 4, notes := "",
     created_at := 40, updated_at := 1 },
   { id := 4, user_id := 1, company_name := "D", role := "R",
     status := "Applied", applied_date := 6, notes := "",
     created_at := 30, updated_at := 1 },
   { id := 5, user_id := 1, company_name := "E", role := "R",
     status := "Offer", applied_date := 7, notes := "",
     created_at := 20, updated_at := 1 }]

/-! ## General helper lemmas -/

/-- A string of positive length is not the empty string. -/
theorem str_ne_empty_of_pos (s : String) (h : 0 < s.length) : s ≠ "" := by
  intro hc
  rw [hc] at h
  exact absurd h (by decide)

/-- A string starting with a non-empty literal is non-empty. -/
theorem str_append_ne_empty (s t : String) (h : 0 < s.length) : s ++ t ≠ "" := by
  apply str_ne_empty_of_pos
  rw [String.length_append]
  omega

/-- Appending on the right preserves non-emptiness. -/
theorem str_append_ne_empty_left (s t : String) (h : s ≠ "") : s ++ t ≠ "" := by
  apply str_append_ne_empty
  cases hn : s.length with
  | zero =>
      exfalso
      apply h
      cases s with
      | mk data =>
          cases data with
          | nil => rfl
          | cons c cs => simp [String.length, List.length] at hn
  | succ n => omega

/-! ## Claims -/

/-- Claim C1 (code bug): the update handler does NOT keep the stored owner
unchanged when the request body carries a `user_id` field. Concretely, user 1
updates their own record 1 sending `user_id: 2`; the handler spreads the body
into the store update, so the stored row's owner becomes 2, and the response
reports the transferred row. -/
theorem update_body_overwrites_owner :
    (JobTracker.updateJob 1 1 { user_id := some 2 } 9
        [{ id := 1, user_id := 1, company_name := "Acme", role := "Dev",
           status := "Applied", applied_date := 3, notes := "",
           created_at := 1, updated_at := 1 }]).1.map Job.user_id = [2]
    ∧ (JobTracker.updateJob 1 1 { user_id := some 2 } 9
        [{ id := 1, user_id := 1, company_name := "Acme", role := "Dev",
           status := "Applied", applied_date := 3, notes := "",
           created_at := 1, updated_at := 1 }]).2
      = .ok "Job application updated successfully"
          { id := 1, user_id := 2, company_name := "Acme", role := "Dev",
            status := "Applied", applied_date := 3, notes := "",
            created_at := 1, updated_at := 9 } := by
  constructor <;> rfl

/-- Claim C3: when the generative backend is configured but the external call
fails — by throwing (quota, network, API error) or by producing an
empty/absent completion — the handler still answers HTTP 200 with the
deterministic template for the requested type, `generated_by` `template`, a
non-empty subject and body, and the human-readable error note. -/
theorem ai_failure_downgrades_to_template (t : String) (req : EmailReq)
    (ht : t = "cold" ∨ t = "followup" ∨ t = "referral")
    (outcome : AIOutcome)
    (hfail : (∃ msg, outcome = .failure msg)
      ∨ (∃ raw, outcome = .success raw ∧ trimChars raw.toList = [])) :
    ∃ d, generateEmail t req true outcome
        = some { status := 200, success := true, data := d }
      ∧ d.generated_by = "template"
      ∧ d.subject ≠ "" ∧ d.body ≠ ""
      ∧ d.note = some "AI generation encountered an error. Using template instead." := by
  have hred : generateEmail t req true outcome
      = templateResponse t req
          "AI generation encountered an error. Using template instead." := by
    rcases hfail with ⟨msg, hmsg⟩ | ⟨raw, hraw, hempty⟩
    · rw [hmsg]; rfl
    · rw [hraw]
      have hstep : generateEmail t req true (.success raw)
          = if trimChars raw.toList = [] then
              templateResponse t req
                "AI generation encountered an error. Using template instead."
            else some (aiSuccessResponse req (trimChars raw.toList)) := rfl
      rw [hstep, if_pos hempty]
  rw [hred]
  rcases ht with h | h | h <;> subst h <;>
    refine ⟨_, rfl, rfl, ?_, ?_, rfl⟩ <;>
    · repeat apply str_append_ne_empty_left
      decide

/-- Witness for C3 at a concrete request and a simulated quota error. -/
theorem ai_failure_downgrades_to_template_check :
    ∃ d, generateEmail "followup"
          { company_name := "Acme", role := "Dev", your_name := "Ann" } true
          (.failure "insufficient_quota")
        = some { status := 200, success := true, data := d }
      ∧ d.generated_by = "template"
      ∧ d.subject ≠ "" ∧ d.body ≠ ""
      ∧ d.note = some "AI generation encountered an error. Using template instead." :=
  ai_failure_downgrades_to_template "followup"
    { company_name := "Acme", role := "Dev", your_name := "Ann" }
    (Or.inr (Or.inl rfl)) (.failure "insufficient_quota")
    (Or.inl ⟨"insufficient_quota", rfl⟩)

/-- Claim C4: with no usable generative credential (`isAIAvailable` false:
missing key, empty key, or key failing the `sk-` format check) the handler
returns the deterministic template response and never consults the external
call — its output is independent of the call's outcome. -/
theorem missing_credential_short_circuits (t : String) (req : EmailReq)
    (key : Option String)
    (ht : t = "cold" ∨ t = "followup" ∨ t = "referral")
    (hk : isAIAvailable key = false) (o1 o2 : AIOutcome) :
    generateEmail t req (isAIAvailable key) o1
      = generateEmail t req (isAIAvailable key) o2
    ∧ ∃ d, generateEmail t req (isAIAvailable key) o1
        = some { status := 200, success := true, data := d }
      ∧ d.generated_by = "template"
      ∧ d.note =
          some "AI generation is currently unavailable. Using template instead." := by
  rw [hk]
  have hred : ∀ o : AIOutcome, generateEmail t req false o
      = templateResponse t req
          "AI generation is currently unavailable. Using template instead." :=
    fun _ => rfl
  refine ⟨(hred o1).trans (hred o2).symm, ?_⟩
  rcases ht with h | h | h <;> subst h <;> exact ⟨_, by rw [hred]; rfl, rfl, rfl⟩

/-- Witness for C4: no key configured, two different call outcomes. -/
theorem missing_credential_short_circuits_check :
    generateEmail "referral"
        { company_name := "Acme", role := "Dev", your_name := "Ann" }
        (isAIAvailable none) (.success "Subject: x\n\ny")
      = generateEmail "referral"
          { company_name := "Acme", role := "Dev", your_name := "Ann" }
          (isAIAvailable none) (.failure "network")
    ∧ ∃ d, generateEmail "referral"
          { company_name := "Acme", role := "Dev", your_name := "Ann" }
          (isAIAvailable none) (.success "Subject: x\n\ny")
        = some { status := 200, success := true, data := d }
      ∧ d.generated_by = "template"
      ∧ d.note =
          some "AI generation is currently unavailable. Using template instead." :=
  missing_credential_short_circuits "referral"
    { company_name := "Acme", role := "Dev", your_name := "Ann" }
    none (Or.inr (Or.inr rfl)) rfl (.success "Subject: x\n\ny") (.failure "network")

/-- Counterexample to claim C5 as stated: a store error in the recent-records
query of the stats handler is NOT surfaced as `STATS_ERROR`/500 — the
response is still a 200 success carrying the stats and an empty recent
list. -/
theorem stats_recent_error_swallowed :
    getJobStats 7
        [{ id := 1, user_id := 7, company_name := "Acme", role := "Dev",
           status := "Applied", applied_date := 3, notes := "",
           created_at := 1, updated_at := 1 }] false true
      = .ok { total := 1, applied := 1, interview := 0, rejected := 0, offer := 0 } [] := by
  rfl

/-- Claim C5 (amended): a store error in the status-counts query surfaces
`STATS_ERROR` with status 500; a store error in the recent-records query
alone is only logged — the handler still succeeds with the same stats and an
empty recent list. -/
theorem stats_error_policy (userId : Nat) (db : List Job) :
    getJobStats userId db true false
      = .apiError 500 "STATS_ERROR" "Failed to fetch statistics"
    ∧ getJobStats userId db true true
      = .apiError 500 "STATS_ERROR" "Failed to fetch statistics"
    ∧ ∀ s r, getJobStats userId db false false = .ok s r →
        getJobStats userId db false true = .ok s [] := by
  refine ⟨rfl, rfl, fun s r h => ?_⟩
  have h0 : StatsResult.ok (statusCountsOf userId db) (recentOf userId db)
      = .ok s r := Eq.trans (by rfl) h
  injection h0 with h1 _
  show StatsResult.ok (statusCountsOf userId db) [] = .ok s []
  rw [h1]

/-- Witness for C5 (amended) at a one-row table. -/
theorem stats_error_policy_check :
    getJobStats 7
        [{ id := 1, user_id := 7, company_name := "Acme", role := "Dev",
           status := "Offer", applied_date := 3, notes := "",
           created_at := 1, updated_at := 1 }] true false
      = .apiError 500 "STATS_ERROR" "Failed to fetch statistics"
    ∧ getJobStats 7
        [{ id := 1, user_id := 7, company_name := "Acme", role := "Dev",
           status := "Offer", applied_date := 3, notes := "",
           created_at := 1, updated_at := 1 }] true true
      = .apiError 500 "STATS_ERROR" "Failed to fetch statistics"
    ∧ ∀ s r, getJobStats 7
          [{ id := 1, user_id := 7, company_name := "Acme", role := "Dev",
             status := "Offer", applied_date := 3, notes := "",
             created_at := 1, updated_at := 1 }] false false = .ok s r →
        getJobStats 7
            [{ id := 1, user_id := 7, company_name := "Acme", role := "Dev",
               status := "Offer", applied_date := 3, notes := "",
               created_at := 1, updated_at := 1 }] false true = .ok s [] :=
  stats_error_policy 7
    [{ id := 1, user_id := 7, company_name := "Acme", role := "Dev",
       status := "Offer", applied_date := 3, notes := "",
       created_at := 1, updated_at := 1 }]

/-- No row with the given id is owned by `B`, so the id+owner query is
empty. -/
theorem rowsFor_eq_nil (B rid : Nat) (db : List Job)
    (h : ∀ s ∈ db, s.id = rid → s.user_id ≠ B) :
    rowsFor B rid db = [] := by
  rw [rowsFor, List.filter_eq_nil_iff]
  intro s hs hp
  simp only [Bool.and_eq_true, decide_eq_true_eq] at hp
  exact h s hs hp.1 hp.2

/-- Claim C2: for a record owned by user A, a get-by-id or delete request
from a different user B using that record's id gets exactly the same 404
`NOT_FOUND` response as a request for an id that no record has; the record's
contents are never returned, the table is unchanged, and the two cases are
indistinguishable to the caller. -/
theorem cross_user_get_delete_not_found (db : List Job) (A B rid oid : Nat)
    (r : Job) (hmem : r ∈ db) (hid : r.id = rid) (hA : r.user_id = A)
    (hAB : B ≠ A)
    (huniq : ∀ s ∈ db, s.id = rid → s = r)
    (hoid : ∀ s ∈ db, s.id ≠ oid) :
    getJobById B rid db = .apiError 404 "NOT_FOUND" "Job application not found"
    ∧ getJobById B rid db = getJobById B oid db
    ∧ deleteJob B rid db
        = (db, .apiError 404 "NOT_FOUND" "Job application not found")
    ∧ deleteJob B rid db = deleteJob B oid db := by
  have h1 : rowsFor B rid db = [] :=
    rowsFor_eq_nil B rid db (fun s hs hsid hsB =>
      hAB (by rw [← hsB, huniq s hs hsid, hA]))
  have h2 : rowsFor B oid db = [] :=
    rowsFor_eq_nil B oid db (fun s hs hsid _ => hoid s hs hsid)
  refine ⟨?_, ?_, ?_, ?_⟩ <;>
    simp only [getJobById, deleteJob, h1, h2]

/-- Witness for C2: user 2 probes user 1's record (id 1) and a non-existent
id 99. -/
theorem cross_user_get_delete_not_found_check :
    getJobById 2 1
        [{ id := 1, user_id := 1, company_name := "Acme", role := "Dev",
           status := "Applied", applied_date := 3, notes := "secret",
           created_at := 1, updated_at := 1 }]
      = .apiError 404 "NOT_FOUND" "Job application not found"
    ∧ getJobById 2 1
        [{ id := 1, user_id := 1, company_name := "Acme", role := "Dev",
           status := "Applied", applied_date := 3, notes := "secret",
           created_at := 1, updated_at := 1 }]
      = getJobById 2 99
          [{ id := 1, user_id := 1, company_name := "Acme", role := "Dev",
             status := "Applied", applied_date := 3, notes := "secret",
             created_at := 1, updated_at := 1 }]
    ∧ deleteJob 2 1
        [{ id := 1, user_id := 1, company_name := "Acme", role := "Dev",
           status := "Applied", applied_date := 3, notes := "secret",
           created_at := 1, updated_at := 1 }]
      = ([{ id := 1, user_id := 1, company_name := "Acme", role := "Dev",
            status := "Applied", applied_date := 3, notes := "secret",
            created_at := 1, updated_at := 1 }],
         .apiError 404 "NOT_FOUND" "Job application not found")
    ∧ deleteJob 2 1
        [{ id := 1, user_id := 1, company_name := "Acme", role := "Dev",
           status := "Applied", applied_date := 3, notes := "secret",
           created_at := 1, updated_at := 1 }]
      = deleteJob 2 99
          [{ id := 1, user_id := 1, company_name := "Acme", role := "Dev",
             status := "Applied", applied_date := 3, notes := "secret",
             created_at := 1, updated_at := 1 }] :=
  cross_user_get_delete_not_found
    [{ id := 1, user_id := 1, company_name := "Acme", role := "Dev",
       status := "Applied", applied_date := 3, notes := "secret",
       created_at := 1, updated_at := 1 }]
    1 2 1 99
    { id := 1, user_id := 1, company_name := "Acme", role := "Dev",
      status := "Applied", applied_date := 3, notes := "secret",
      created_at := 1, updated_at := 1 }
    (by decide) rfl rfl (by decide) (by decide) (by decide)

/-- Claim C7: a valid create request stores a record owned by the caller
regardless of any client-supplied owner value, with `applied_date` defaulting
to the current date and `notes` to the empty string when omitted, and
responds 201 with the stored record including its generated id and
timestamps. -/
theorem createJob_defaults_and_owner (userId : Nat) (b : CreateBody)
    (freshId today now : Nat) (db : List Job)
    (hdate : b.applied_date = none) (hnotes : b.notes = none) :
    ∃ j : Job,
      createJob userId b freshId today now db
        = (db ++ [j], .created 201 "Job application created successfully" j)
      ∧ j.user_id = userId ∧ j.applied_date = today ∧ j.notes = ""
      ∧ j.id = freshId ∧ j.created_at = now ∧ j.updated_at = now
      ∧ j.company_name = b.company_name ∧ j.role = b.role ∧ j.status = b.status := by
  refine ⟨_, rfl, rfl, ?_, ?_, rfl, rfl, rfl, rfl, rfl, rfl⟩
  · show b.applied_date.getD today = today
    rw [hdate]; rfl
  · show b.notes.getD "" = ""
    rw [hnotes]; rfl

/-- Witness for C7: the client even supplies an owner value, which is
ignored. -/
theorem createJob_defaults_and_owner_check :
    ∃ j : Job,
      createJob 4
          { company_name := "Acme", role := "Dev", status := "Applied",
            user_id := some 99 } 11 20 30 []
        = ([] ++ [j], .created 201 "Job application created successfully" j)
      ∧ j.user_id = 4 ∧ j.applied_date = 20 ∧ j.notes = ""
      ∧ j.id = 11 ∧ j.created_at = 30 ∧ j.updated_at = 30
      ∧ j.company_name = "Acme" ∧ j.role = "Dev" ∧ j.status = "Applied" :=
  createJob_defaults_and_owner 4
    { company_name := "Acme", role := "Dev", status := "Applied",
      user_id := some 99 } 11 20 30 [] rfl rfl

/-- The subject-extraction loop, characterized at the first line that passes
the guard: scanning from accumulated index `i`, it yields that line's
stripped, trimmed text and the body start two past its position. -/
theorem extractSubject_at_first (l : List (List Char)) (i j : Nat)
    (hj : j < l.length)
    (hsubj : subjectLinePred (l.getD j []) = true)
    (hmin : ∀ k, k < j → subjectLinePred (l.getD k []) = false) :
    extractSubject l i
      = (trimChars (stripSubjectLabel (l.getD j [])), i + j + 2) := by
  induction l generalizing i j with
  | nil => simp at hj
  | cons a as ih =>
      cases j with
      | zero =>
          rw [List.getD_cons_zero] at hsubj ⊢
          unfold extractSubject
          rw [hsubj]
          simp
      | succ j' =>
          have ha : subjectLinePred a = false := by
            have := hmin 0 (Nat.succ_pos j')
            rwa [List.getD_cons_zero] at this
          unfold extractSubject
          rw [ha]
          simp only [Bool.false_eq_true, if_false]
          rw [List.getD_cons_succ] at hsubj
          have hstep := ih (i + 1) j' (by simpa using hj) hsubj
            (fun k hk => by
              have := hmin (k + 1) (Nat.succ_lt_succ hk)
              rwa [List.getD_cons_succ] at this)
          rw [hstep, List.getD_cons_succ]
          exact congrArg _ (by omega)

/-- Claim C6: for a non-empty completion text, the handler's parse takes as
subject the text after the `Subject:` label on the first line that begins
with it case-insensitively, and as body everything after that line skipping
one separator line; an empty parsed subject is replaced by the synthesized
default `Application for {role} at {company}`, and an empty parsed body by
the completion text itself. (`j` is the position of the first subject line;
the guard, label-stripping and trimming are the handler's own.) -/
theorem ai_completion_parse_spec (t : String) (req : EmailReq) (raw : String)
    (hne : trimChars raw.toList ≠ []) (j : Nat)
    (hj : j < (splitLines (trimChars raw.toList)).length)
    (hsubj : subjectLinePred ((splitLines (trimChars raw.toList)).getD j [])
      = true)
    (hmin : ∀ k, k < j →
      subjectLinePred ((splitLines (trimChars raw.toList)).getD k []) = false) :
    generateEmail t req true (.success raw) =
      some
        { status := 200
          success := true
          data :=
            { subject :=
                if trimChars (stripSubjectLabel
                      ((splitLines (trimChars raw.toList)).getD j [])) = [] then
                  "Application for " ++ req.role ++ " at " ++ req.company_name
                else
                  String.mk (trimChars (stripSubjectLabel
                    ((splitLines (trimChars raw.toList)).getD j [])))
              body :=
                if trimChars (joinLines
                      ((splitLines (trimChars raw.toList)).drop (j + 2))) = [] then
                  String.mk (trimChars raw.toList)
                else
                  String.mk (trimChars (joinLines
                    ((splitLines (trimChars raw.toList)).drop (j + 2))))
              generated_by := "ai"
              note := none } } := by
  have hparse : parseGenerated (trimChars raw.toList)
      = (trimChars (stripSubjectLabel
            ((splitLines (trimChars raw.toList)).getD j [])),
         trimChars (joinLines
           ((splitLines (trimChars raw.toList)).drop (j + 2)))) := by
    unfold parseGenerated
    rw [extractSubject_at_first (splitLines (trimChars raw.toList)) 0 j hj
      hsubj hmin]
    simp
  have hred : generateEmail t req true (.success raw)
      = if trimChars raw.toList = [] then
          templateResponse t req
            "AI generation encountered an error. Using template instead."
        else some (aiSuccessResponse req (trimChars raw.toList)) := rfl
  rw [hred, if_neg hne]
  unfold aiSuccessResponse
  rw [hparse]

/-- Witness for C6 on the completion `Subject: Hello` + blank + `Line one`. -/
theorem ai_completion_parse_spec_check :
    generateEmail "cold" { company_name := "Acme", role := "Dev", your_name := "Ann" }
        true (.success "Subject: Hello\n\nLine one")
      = some
          { status := 200
            success := true
            data :=
              { subject := "Hello", body := "Line one",
                generated_by := "ai", note := none } } := by
  have h := ai_completion_parse_spec "cold"
    { company_name := "Acme", role := "Dev", your_name := "Ann" }
    "Subject: Hello\n\nLine one" (by decide) 0 (by decide) (by decide)
    (fun k hk => absurd hk (by omega))
  exact h.trans (by decide)

/-- The status counts are counts over the table: filtering the projected
status column equals filtering the rows by owner and status. -/
theorem length_filter_statusData (userId : Nat) (v : String) (db : List Job) :
    ((statusDataOf userId db).filter (fun s => s = v)).length
      = (db.filter (fun r => r.user_id = userId && r.status = v)).length := by
  unfold statusDataOf
  induction db with
  | nil => rfl
  | cons a as ih =>
      by_cases hu : a.user_id = userId
      · by_cases hs : a.status = v
        · simp [List.filter_cons, hu, hs, ih]
        · simp [List.filter_cons, hu, hs, ih]
      · simp [List.filter_cons, hu, ih]

/-- Claim C9: the stats response's total is the number of the caller's
records, each per-status count is the number of the caller's records with
that status, and `recent` consists of the caller's 5 most-recently-created
records: at most 5 of them, ordered by created timestamp descending, and
together with some remainder a permutation of the caller's records, every
left-out record being no newer than every returned one. -/
theorem getJobStats_counts_and_recent (userId : Nat) (db : List Job)
    (s : Stats) (recent : List Job)
    (h : getJobStats userId db false false = .ok s recent) :
    s.total = (db.filter (fun r => r.user_id = userId)).length
    ∧ s.applied
        = (db.filter (fun r => r.user_id = userId && r.status = "Applied")).length
    ∧ s.interview
        = (db.filter (fun r => r.user_id = userId && r.status = "Interview")).length
    ∧ s.rejected
        = (db.filter (fun r => r.user_id = userId && r.status = "Rejected")).length
    ∧ s.offer
        = (db.filter (fun r => r.user_id = userId && r.status = "Offer")).length
    ∧ recent.length = min 5 (db.filter (fun r => r.user_id = userId)).length
    ∧ recent.Sorted createdGe
    ∧ ∃ rest, (recent ++ rest).Perm (db.filter (fun r => r.user_id = userId))
        ∧ ∀ x ∈ recent, ∀ y ∈ rest, y.created_at ≤ x.created_at := by
  have h0 : StatsResult.ok (statusCountsOf userId db) (recentOf userId db)
      = .ok s recent := Eq.trans (by rfl) h
  injection h0 with h1 h2
  subst h1
  subst h2
  have hsorted : ((db.filter (fun r => r.user_id = userId)).insertionSort
      createdGe).Pairwise createdGe :=
    List.sorted_insertionSort createdGe _
  refine ⟨?_, length_filter_statusData userId "Applied" db,
    length_filter_statusData userId "Interview" db,
    length_filter_statusData userId "Rejected" db,
    length_filter_statusData userId "Offer" db, ?_, ?_, ?_⟩
  · show (statusDataOf userId db).length = _
    unfold statusDataOf
    exact List.length_map _ _
  · show (recentOf userId db).length = _
    unfold recentOf
    rw [List.length_take,
      (List.perm_insertionSort createdGe
        (db.filter (fun r => r.user_id = userId))).length_eq]
  · exact List.Pairwise.sublist (List.take_sublist _ _) hsorted
  · refine ⟨((db.filter (fun r => r.user_id = userId)).insertionSort
        createdGe).drop 5, ?_, ?_⟩
    · show ((((db.filter (fun r => r.user_id = userId)).insertionSort
          createdGe).take 5)
        ++ (((db.filter (fun r => r.user_id = userId)).insertionSort
          createdGe).drop 5)).Perm _
      rw [List.take_append_drop]
      exact List.perm_insertionSort createdGe _
    · have hp := hsorted
      rw [← List.take_append_drop 5
        ((db.filter (fun r => r.user_id = userId)).insertionSort createdGe),
        List.pairwise_append] at hp
      exact hp.2.2

/-- Witness for C9: a user with 3 Applied, 1 Interview, 0 Rejected and
1 Offer records (plus another user's record) gets total 5 and counts
3/1/0/1, with all five records returned as recent. -/
theorem getJobStats_counts_and_recent_check :
    stats9.total = (db9.filter (fun r => r.user_id = 1)).length
    ∧ stats9.applied
        = (db9.filter (fun r => r.user_id = 1 && r.status = "Applied")).length
    ∧ stats9.interview
        = (db9.filter (fun r => r.user_id = 1 && r.status = "Interview")).length
    ∧ stats9.rejected
        = (db9.filter (fun r => r.user_id = 1 && r.status = "Rejected")).length
    ∧ stats9.offer
        = (db9.filter (fun r => r.user_id = 1 && r.status = "Offer")).length
    ∧ recent9.length = min 5 (db9.filter (fun r => r.user_id = 1)).length
    ∧ recent9.Sorted createdGe
    ∧ ∃ rest, (recent9 ++ rest).Perm (db9.filter (fun r => r.user_id = 1))
        ∧ ∀ x ∈ recent9, ∀ y ∈ rest, y.created_at ≤ x.created_at :=
  getJobStats_counts_and_recent 1 db9 stats9 recent9 (by decide)

/-- Claim C10: the pagination `hasMore` flag of a list response is true
exactly when the offset plus the number of records in the returned page is
strictly below the total matching count. -/
theorem hasMore_iff_window_below_total (userId : Nat) (q : ListQuery)
    (db : List Job) :
    (getAllJobs userId q db).pagination.hasMore = true ↔
      (getAllJobs userId q db).pagination.offset
          + ((getAllJobs userId q db).data.length : Int)
        < ((getAllJobs userId q db).pagination.total : Int) := by
  simp only [getAllJobs]
  exact decide_eq_true_iff

end JobTracker
